import Mathlib

/-!
Verification development for the xlearn-wasm C ABI adapter (`csrc/wl_api.cpp`).

The adapter is shallowly embedded:

* `DMatrix`, `buildDenseMatrix` and `buildCSRMatrix` model the training-matrix
  construction done by `wl_xl_create_dmatrix_dense` / `wl_xl_create_dmatrix_csr`;
  float arithmetic is modelled exactly over `ℚ` (both builders perform the
  same operations in the same order, so every structural statement proved here
  holds for any arithmetic interpretation executed in that order).
* Each fallible boundary operation is a function over an explicit `ProcState`
  (the single-slot error message `last_error`, the staging counter
  `fit_counter`, and the stdout-redirection state), parameterised by oracles
  for the outcomes of external calls (engine status, filesystem, allocation),
  and returning the observable trace of engine / filesystem events.
-/

namespace WlApi

/-- C cast of an `int` to xLearn's unsigned 32-bit `index_t`. -/
def toIndexT (x : Int) : Nat := (x % (2 ^ 32 : Int)).toNat

/-- One sparse node of an xLearn `DMatrix` row: `(field_id, feat_id, feat_val)`,
as appended by `DMatrix::AddNode`. -/
structure Node where
  fieldId : Nat
  featId : Nat
  value : ℚ
deriving DecidableEq

/-- The parts of an xLearn `DMatrix` populated by the adapter: the per-row node
lists, labels `Y`, per-row normalization scalars `norm`, and `has_label`. -/
structure DMatrix where
  hasLabel : Bool
  rows : List (List Node)
  Y : List ℚ
  norm : List ℚ
deriving DecidableEq

/-- Field id of a node: `field_map ? (index_t)field_map[j] : 0`. -/
def fieldOf (field_map : Option (Nat → Int)) (j : Nat) : Nat :=
  match field_map with
  | some fm => toIndexT (fm j)
  | none => 0

/-- The per-row normalization scalar exactly as both builders compute it:
a running accumulator `norm += val * val` over the appended nodes, then
`matrix->norm[i] = (norm > 0.0f) ? (1.0f / norm) : 1.0f`. -/
def normScalar (ns : List Node) : ℚ :=
  let s := ns.foldl (fun a n => a + n.value * n.value) 0
  if 0 < s then 1 / s else 1

/-- Nodes appended for row `i` of a dense row-major array by
`wl_xl_create_dmatrix_dense`: for each `j < ncol`, `val = data[i*ncol+j]`;
`if (val == 0.0f) continue;` else append `(field, j, val)`. -/
def denseRowNodes (data : Nat → ℚ) (ncol : Nat) (field_map : Option (Nat → Int))
    (i : Nat) : List Node :=
  (List.range ncol).filterMap (fun j =>
    if data (i * ncol + j) = 0 then none
    else some ⟨fieldOf field_map j, j, data (i * ncol + j)⟩)

/-- The matrix built by the loop of `wl_xl_create_dmatrix_dense` on valid
arguments. -/
def buildDenseMatrix (data : Nat → ℚ) (nrow ncol : Nat)
    (label : Option (Nat → ℚ)) (field_map : Option (Nat → Int)) : DMatrix where
  hasLabel := label.isSome
  rows := (List.range nrow).map (denseRowNodes data ncol field_map)
  Y := (List.range nrow).map (fun i =>
    match label with
    | some l => l i
    | none => 0)
  norm := (List.range nrow).map (fun i =>
    normScalar (denseRowNodes data ncol field_map i))

/-- Nodes appended for row `i` by `wl_xl_create_dmatrix_csr`: for each entry
index `j` in `[row_ptr[i], row_ptr[i+1])`, append
`(field_map ? field_map[col_indices[j]] : 0, col_indices[j], values[j])` —
with no zero filter. -/
def csrRowNodes (values : Nat → ℚ) (col_indices : Nat → Nat) (row_ptr : Nat → Nat)
    (field_map : Option (Nat → Int)) (i : Nat) : List Node :=
  (List.range (row_ptr (i + 1) - row_ptr i)).map (fun k =>
    ⟨fieldOf field_map (col_indices (row_ptr i + k)),
     col_indices (row_ptr i + k),
     values (row_ptr i + k)⟩)

/-- The matrix built by the loop of `wl_xl_create_dmatrix_csr` on valid
arguments. -/
def buildCSRMatrix (values : Nat → ℚ) (col_indices : Nat → Nat) (row_ptr : Nat → Nat)
    (nrow : Nat) (label : Option (Nat → ℚ)) (field_map : Option (Nat → Int)) :
    DMatrix where
  hasLabel := label.isSome
  rows := (List.range nrow).map (csrRowNodes values col_indices row_ptr field_map)
  Y := (List.range nrow).map (fun i =>
    match label with
    | some l => l i
    | none => 0)
  norm := (List.range nrow).map (fun i =>
    normScalar (csrRowNodes values col_indices row_ptr field_map i))

/-! ### The explicitly-sparse CSR representation of a dense array

These definitions follow the spec's words ("the equivalent explicitly-sparse
(zeros omitted) representation of the same data"), to be compared with the
builders above. -/

/-- Spec: the `(column, value)` entries of row `i` of a dense row-major array,
zero entries omitted, in column order. -/
def denseRowEntries (data : Nat → ℚ) (ncol i : Nat) : List (Nat × ℚ) :=
  (List.range ncol).filterMap (fun j =>
    if data (i * ncol + j) = 0 then none else some (j, data (i * ncol + j)))

/-- Spec: the concatenated entries of all rows, in row order. -/
def csrEntriesOfDense (data : Nat → ℚ) (nrow ncol : Nat) : List (Nat × ℚ) :=
  ((List.range nrow).map (denseRowEntries data ncol)).flatten

/-- Spec: the CSR row-pointer array of a dense array with zeros omitted. -/
def csrRowPtrOfDense (data : Nat → ℚ) (ncol : Nat) : Nat → Nat :=
  fun i => ((List.range i).map (fun r => (denseRowEntries data ncol r).length)).sum

/-- Spec: the CSR values array of a dense array with zeros omitted. -/
def csrValuesOfDense (data : Nat → ℚ) (nrow ncol : Nat) : Nat → ℚ :=
  fun k => ((csrEntriesOfDense data nrow ncol).getD k (0, 0)).2

/-- Spec: the CSR column-index array of a dense array with zeros omitted. -/
def csrColsOfDense (data : Nat → ℚ) (nrow ncol : Nat) : Nat → Nat :=
  fun k => ((csrEntriesOfDense data nrow ncol).getD k (0, 0)).1

/-! ### Process-wide state and observable events -/

/-- The staging path built by `snprintf`: `isModel = true` stands for
`"/tmp/wl_xl_model_%d"` (fit) and `isModel = false` for
`"/tmp/wl_xl_pred_%d"` (predict); `n` is the counter value interpolated.
Both renderings are injective, so path equality is pair equality. -/
structure StagingId where
  isModel : Bool
  n : Nat
deriving DecidableEq

/-- Observable events of a boundary call: calls into the engine, staging-file
operations, and stdout redirection. -/
inductive Event where
  | engineCreate
  | engineSetStr (key value : String)
  | engineSetInt (key : String) (value : Int)
  | engineSetBool (key : String) (value : Bool)
  | engineDelegate (name : String)
  | engineSetDMatrix (role : String)
  | engineFit (path : StagingId)
  | enginePredict (path : StagingId)
  | suppressOut
  | restoreOut
  | stageCreate (path : StagingId)
  | stageRemove (path : StagingId)
  | fopenRead (path : StagingId)
  | mallocCall
  | allocMatrix
  | resetMatrix
  | releaseMatrix
deriving DecidableEq

/-- Process-wide mutable state of the adapter: the single-slot error buffer
`last_error`, the staging counter `fit_counter`, and the stdout-suppression
state (`saved_stdout_fd >= 0`, and whether fd 1 currently points at the
discard sink). -/
structure ProcState where
  lastError : String
  fit_counter : Nat
  savedStdout : Bool
  stdoutRedirected : Bool
deriving DecidableEq

/-- `set_error`: `strncpy` into the 1024-byte slot, always null-terminated,
so at most 1023 characters of the message are kept. -/
def set_error (msg : String) (st : ProcState) : ProcState :=
  { st with lastError := ⟨msg.data.take 1023⟩ }

/-- `wl_xl_get_last_error`. -/
def wl_xl_get_last_error (st : ProcState) : String := st.lastError

/-- `suppress_stdout`: save fd 1 and point it at `/dev/null`. -/
def suppress_stdout (st : ProcState) : ProcState :=
  { st with savedStdout := true, stdoutRedirected := true }

/-- `restore_stdout`: if a saved fd exists, restore fd 1 from it and drop it. -/
def restore_stdout (st : ProcState) : ProcState :=
  if st.savedStdout then { st with stdoutRedirected := false, savedStdout := false }
  else st

/-- Result of a fallible operation whose out-parameters are opaque:
status code, whether the out slots were written, the event trace, and the
resulting process state. -/
structure OpOut where
  status : Int
  outWritten : Bool
  events : List Event
  st : ProcState
deriving DecidableEq

/-- Result of a matrix-builder call: `outMat = some m` models `*out = matrix`
having been executed with the fully built matrix `m`. -/
structure BuildOut where
  status : Int
  outMat : Option DMatrix
  events : List Event
  st : ProcState
deriving DecidableEq

/-! ### Handle lifecycle -/

/-- Oracle for `XLearnCreate`: whether it accepts the model type, and what
`XLearnGetLastError` returns afterwards (`none` models a null pointer). -/
structure CreateEnv where
  createOk : Bool
  engineMsg : Option String
deriving DecidableEq

/-- The fixed WASM-friendly defaults applied by `wl_xl_create` on success,
in source order. -/
def wlDefaults : List Event :=
  [.engineSetBool ("quiet") true,
   .engineSetBool ("lock_free") false,
   .engineSetBool ("from_file") false,
   .engineSetBool ("bin_out") false,
   .engineSetBool ("early_stop") false,
   .engineSetInt ("nthread") 1,
   .engineSetStr ("log") ("/dev/null")]

/-- `wl_xl_create(model_type, out)`; `model_type` / `out` are `true` when the
corresponding pointer argument is non-null. -/
def wl_xl_create (env : CreateEnv) (model_type out : Bool) (st : ProcState) : OpOut :=
  let st1 := { st with lastError := "" }
  if ¬model_type ∨ ¬out then
    ⟨-1, false, [], set_error ("wl_xl_create: null argument") st1⟩
  else if ¬env.createOk then
    ⟨-1, false, [.engineCreate],
      set_error (env.engineMsg.getD ("XLearnCreate failed")) st1⟩
  else
    ⟨0, true, .engineCreate :: wlDefaults, st1⟩

/-! ### Parameter setters (note: these do NOT clear `last_error` on entry) -/

/-- `wl_xl_set_str(handle, key, value)`; `engineStatus` is the status returned
by `XLearnSetStr`, propagated verbatim. -/
def wl_xl_set_str (engineStatus : Int) (handle key value : Bool) (st : ProcState) :
    OpOut :=
  if ¬handle ∨ ¬key ∨ ¬value then
    ⟨-1, false, [], set_error ("wl_xl_set_str: null argument") st⟩
  else
    ⟨engineStatus, false, [.engineDelegate ("XLearnSetStr")], st⟩

/-- `wl_xl_set_int(handle, key, value)`. -/
def wl_xl_set_int (engineStatus : Int) (handle key : Bool) (st : ProcState) : OpOut :=
  if ¬handle ∨ ¬key then
    ⟨-1, false, [], set_error ("wl_xl_set_int: null argument") st⟩
  else
    ⟨engineStatus, false, [.engineDelegate ("XLearnSetInt")], st⟩

/-- `wl_xl_set_float(handle, key, value)`. -/
def wl_xl_set_float (engineStatus : Int) (handle key : Bool) (st : ProcState) : OpOut :=
  if ¬handle ∨ ¬key then
    ⟨-1, false, [], set_error ("wl_xl_set_float: null argument") st⟩
  else
    ⟨engineStatus, false, [.engineDelegate ("XLearnSetFloat")], st⟩

/-- `wl_xl_set_bool(handle, key, value)`. -/
def wl_xl_set_bool (engineStatus : Int) (handle key : Bool) (st : ProcState) : OpOut :=
  if ¬handle ∨ ¬key then
    ⟨-1, false, [], set_error ("wl_xl_set_bool: null argument") st⟩
  else
    ⟨engineStatus, false, [.engineDelegate ("XLearnSetBool")], st⟩

/-! ### Matrix builders (boundary wrappers) -/

/-- Oracle for matrix construction: whether an `std::exception` is raised
during construction (after the `DMatrix` object itself was allocated with
`new`), and its `what()` text. -/
structure BuildEnv where
  ctorThrows : Bool
  exMsg : String
deriving DecidableEq

/-- `wl_xl_create_dmatrix_dense(data, nrow, ncol, label, field_map, out)`.
`data = none` models a null data pointer; `out` is `true` when the output
slot pointer is non-null. -/
def wl_xl_create_dmatrix_dense (env : BuildEnv)
    (data : Option (Nat → ℚ)) (nrow ncol : Int)
    (label : Option (Nat → ℚ)) (field_map : Option (Nat → Int))
    (out : Bool) (st : ProcState) : BuildOut :=
  let st1 := { st with lastError := "" }
  match data with
  | none =>
    ⟨-1, none, [], set_error ("wl_xl_create_dmatrix_dense: invalid arguments") st1⟩
  | some d =>
    if nrow ≤ 0 ∨ ncol ≤ 0 ∨ ¬out then
      ⟨-1, none, [], set_error ("wl_xl_create_dmatrix_dense: invalid arguments") st1⟩
    else if env.ctorThrows then
      ⟨-1, none, [.allocMatrix], set_error env.exMsg st1⟩
    else
      ⟨0, some (buildDenseMatrix d nrow.toNat ncol.toNat label field_map),
        [.allocMatrix], st1⟩

/-- `wl_xl_create_dmatrix_csr(values, nnz, col_indices, row_ptr, nrow, ncol,
label, field_map, out)`. `nnz` is accepted but (as in the source) never
checked or used. -/
def wl_xl_create_dmatrix_csr (env : BuildEnv)
    (values : Option (Nat → ℚ)) (nnz : Int)
    (col_indices : Option (Nat → Nat)) (row_ptr : Option (Nat → Nat))
    (nrow ncol : Int)
    (label : Option (Nat → ℚ)) (field_map : Option (Nat → Int))
    (out : Bool) (st : ProcState) : BuildOut :=
  let st1 := { st with lastError := "" }
  match values, col_indices, row_ptr with
  | some v, some ci, some rp =>
    if nrow ≤ 0 ∨ ncol ≤ 0 ∨ ¬out then
      ⟨-1, none, [], set_error ("wl_xl_create_dmatrix_csr: invalid arguments") st1⟩
    else if env.ctorThrows then
      ⟨-1, none, [.allocMatrix], set_error env.exMsg st1⟩
    else
      ⟨0, some (buildCSRMatrix v ci rp nrow.toNat label field_map),
        [.allocMatrix], st1⟩
  | _, _, _ =>
    ⟨-1, none, [], set_error ("wl_xl_create_dmatrix_csr: invalid arguments") st1⟩

/-- `wl_xl_free_dmatrix`: two-phase teardown (`Reset` then `delete`),
defensive no-op on null. -/
def wl_xl_free_dmatrix (dmatrix : Bool) : List Event :=
  if dmatrix then [.resetMatrix, .releaseMatrix] else []

/-! ### Train -/

/-- Oracle for the external calls made by `wl_xl_fit`: statuses of
`XLearnSetDMatrix` (train / validate), `XLearnFit`, whether
`fopen(model_path, "rb")` succeeds, whether `malloc` succeeds, and the
engine's last-error text. -/
structure FitEnv where
  setTrainOk : Bool
  setValidOk : Bool
  fitOk : Bool
  fopenOk : Bool
  mallocOk : Bool
  engineMsg : Option String
deriving DecidableEq

/-- `wl_xl_fit(handle, dtrain, dvalid, out_model_buf, out_model_len)`.
Boolean arguments are `true` when the corresponding pointer is non-null
(`dvalid` is the optional validation matrix). -/
def wl_xl_fit (env : FitEnv)
    (handle dtrain dvalid out_model_buf out_model_len : Bool)
    (st : ProcState) : OpOut :=
  let st1 := { st with lastError := "" }
  if ¬handle ∨ ¬dtrain ∨ ¬out_model_buf ∨ ¬out_model_len then
    ⟨-1, false, [], set_error ("wl_xl_fit: null argument") st1⟩
  else if ¬env.setTrainOk then
    ⟨-1, false, [.engineSetDMatrix ("train")],
      set_error (env.engineMsg.getD ("XLearnSetDMatrix(train) failed")) st1⟩
  else if dvalid ∧ ¬env.setValidOk then
    ⟨-1, false, [.engineSetDMatrix ("train"), .engineSetDMatrix ("validate")],
      set_error (env.engineMsg.getD ("XLearnSetDMatrix(validate) failed")) st1⟩
  else
    let ev0 : List Event :=
      if dvalid then [.engineSetDMatrix ("train"), .engineSetDMatrix ("validate")]
      else [.engineSetDMatrix ("train")]
    let path : StagingId := ⟨true, st1.fit_counter⟩
    let st2 := { st1 with fit_counter := st1.fit_counter + 1 }
    let st3 := restore_stdout (suppress_stdout st2)
    let ev1 := ev0 ++ [.suppressOut, .engineFit path] ++
      (if env.fitOk then [.stageCreate path] else []) ++ [.restoreOut]
    if ¬env.fitOk then
      ⟨-1, false, ev1 ++ [.stageRemove path],
        set_error (env.engineMsg.getD ("XLearnFit failed")) st3⟩
    else
      let ev2 := ev1 ++ [.fopenRead path]
      if ¬env.fopenOk then
        ⟨-1, false, ev2,
          set_error ("wl_xl_fit: cannot read model file from MEMFS") st3⟩
      else
        let ev3 := ev2 ++ [.mallocCall]
        if ¬env.mallocOk then
          ⟨-1, false, ev3 ++ [.stageRemove path],
            set_error ("wl_xl_fit: allocation failed") st3⟩
        else
          ⟨0, true, ev3 ++ [.stageRemove path], st3⟩

/-! ### Predict -/

/-- Oracle for the external calls made by `wl_xl_predict`: whether
`fopen(model_path, "wb")` succeeds, statuses of `XLearnSetDMatrix(test)` and
`XLearnPredictForMat`, whether `malloc` succeeds, and the engine's last-error
text. -/
structure PredictEnv where
  fopenOk : Bool
  setTestOk : Bool
  predictOk : Bool
  mallocOk : Bool
  engineMsg : Option String
deriving DecidableEq

/-- `wl_xl_predict(handle, model_buf, model_len, dtest, out_preds, out_len)`. -/
def wl_xl_predict (env : PredictEnv)
    (handle model_buf : Bool) (model_len : Int)
    (dtest out_preds out_len : Bool)
    (st : ProcState) : OpOut :=
  let st1 := { st with lastError := "" }
  if ¬handle ∨ ¬model_buf ∨ model_len ≤ 0 ∨ ¬dtest ∨ ¬out_preds ∨ ¬out_len then
    ⟨-1, false, [], set_error ("wl_xl_predict: null argument") st1⟩
  else
    let path : StagingId := ⟨false, st1.fit_counter⟩
    let st2 := { st1 with fit_counter := st1.fit_counter + 1 }
    if ¬env.fopenOk then
      ⟨-1, false, [],
        set_error ("wl_xl_predict: cannot create model file in MEMFS") st2⟩
    else
      let ev0 : List Event := [.stageCreate path, .engineSetDMatrix ("test")]
      if ¬env.setTestOk then
        ⟨-1, false, ev0 ++ [.stageRemove path],
          set_error (env.engineMsg.getD ("XLearnSetDMatrix(test) failed")) st2⟩
      else
        let st3 := restore_stdout (suppress_stdout st2)
        let ev1 := ev0 ++ [.suppressOut, .enginePredict path, .restoreOut,
          .stageRemove path]
        if ¬env.predictOk then
          ⟨-1, false, ev1,
            set_error (env.engineMsg.getD ("XLearnPredictForMat failed")) st3⟩
        else
          let ev2 := ev1 ++ [.mallocCall]
          if ¬env.mallocOk then
            ⟨-1, false, ev2, set_error ("wl_xl_predict: allocation failed") st3⟩
          else
            ⟨0, true, ev2, st3⟩

/-! ### Trace predicates -/

/-- Staging paths created (a staging file came into existence) in a trace. -/
def createdPaths (evs : List Event) : List StagingId :=
  evs.filterMap (fun e =>
    match e with
    | .stageCreate p => some p
    | _ => none)

/-- Staging paths removed in a trace. -/
def removedPaths (evs : List Event) : List StagingId :=
  evs.filterMap (fun e =>
    match e with
    | .stageRemove p => some p
    | _ => none)

/-- Every staging path created in the trace is also removed in it. -/
def stagingReclaimed (evs : List Event) : Prop :=
  ∀ p ∈ createdPaths evs, p ∈ removedPaths evs

instance (evs : List Event) : Decidable (stagingReclaimed evs) := by
  unfold stagingReclaimed
  infer_instance

/-- Staging paths mentioned by any event of a trace. -/
def usedPaths (evs : List Event) : List StagingId :=
  evs.filterMap (fun e =>
    match e with
    | .stageCreate p => some p
    | .stageRemove p => some p
    | .engineFit p => some p
    | .enginePredict p => some p
    | .fopenRead p => some p
    | _ => none)

/-- The subtrace of stdout-redirection events and engine fit/predict
invocations, used to state that suppression immediately precedes the engine
call and restoration immediately follows it. -/
def stdoutTrace (evs : List Event) : List Event :=
  evs.filter (fun e =>
    match e with
    | .suppressOut => true
    | .restoreOut => true
    | .engineFit _ => true
    | .enginePredict _ => true
    | _ => false)

/-! ### Helper lemmas -/

lemma flatten_getElem?_take_sum {α : Type _} (L : List (List α)) :
    ∀ i k : Nat, k < (L.getD i []).length →
      L.flatten[(((L.take i).map List.length).sum + k)]? = (L.getD i [])[k]? := by
  induction L with
  | nil =>
    intro i k hk
    cases i <;> simp at hk
  | cons a L ih =>
    intro i k hk
    cases i with
    | zero =>
      rw [List.getD_cons_zero] at hk ⊢
      simpa using List.getElem?_append_left hk
    | succ i =>
      rw [List.getD_cons_succ] at hk ⊢
      rw [List.take_succ_cons, List.map_cons, List.sum_cons, List.flatten_cons,
        Nat.add_assoc, List.getElem?_append_right (Nat.le_add_right _ _),
        Nat.add_sub_cancel_left]
      exact ih i k hk

lemma csrRowPtrOfDense_succ (data : Nat → ℚ) (ncol i : Nat) :
    csrRowPtrOfDense data ncol (i + 1)
      = csrRowPtrOfDense data ncol i + (denseRowEntries data ncol i).length := by
  unfold csrRowPtrOfDense
  rw [List.range_succ, List.map_append, List.sum_append]
  simp

lemma csrRowPtrOfDense_take (data : Nat → ℚ) (nrow ncol i : Nat) (h : i ≤ nrow) :
    ((((List.range nrow).map (denseRowEntries data ncol)).take i).map
        List.length).sum
      = csrRowPtrOfDense data ncol i := by
  unfold csrRowPtrOfDense
  rw [← List.map_take, List.take_range, min_eq_left h, List.map_map]
  rfl

lemma csrEntriesOfDense_getD (data : Nat → ℚ) (nrow ncol i k : Nat) (hi : i < nrow)
    (hk : k < (denseRowEntries data ncol i).length) :
    (csrEntriesOfDense data nrow ncol).getD (csrRowPtrOfDense data ncol i + k) (0, 0)
      = (denseRowEntries data ncol i).getD k (0, 0) := by
  have hgetD : ((List.range nrow).map (denseRowEntries data ncol)).getD i []
      = denseRowEntries data ncol i := by
    rw [List.getD_eq_getElem?_getD, List.getElem?_map, List.getElem?_range hi]
    rfl
  have hk' : k < (((List.range nrow).map (denseRowEntries data ncol)).getD i []).length := by
    rw [hgetD]; exact hk
  unfold csrEntriesOfDense
  rw [List.getD_eq_getElem?_getD,
    ← csrRowPtrOfDense_take data nrow ncol i (Nat.le_of_lt hi),
    flatten_getElem?_take_sum _ i k hk', hgetD, ← List.getD_eq_getElem?_getD]

lemma denseRowNodes_eq_map_entries (data : Nat → ℚ) (ncol : Nat)
    (field_map : Option (Nat → Int)) (i : Nat) :
    denseRowNodes data ncol field_map i
      = (denseRowEntries data ncol i).map
          (fun p => ⟨fieldOf field_map p.1, p.1, p.2⟩) := by
  unfold denseRowNodes denseRowEntries
  rw [List.map_filterMap]
  refine List.filterMap_congr (fun j hj => ?_)
  by_cases h : data (i * ncol + j) = 0 <;> simp [h]

lemma csrRowNodes_ofDense (data : Nat → ℚ) (nrow ncol : Nat)
    (field_map : Option (Nat → Int)) (i : Nat) (hi : i < nrow) :
    csrRowNodes (csrValuesOfDense data nrow ncol) (csrColsOfDense data nrow ncol)
      (csrRowPtrOfDense data ncol) field_map i
      = denseRowNodes data ncol field_map i := by
  rw [denseRowNodes_eq_map_entries]
  unfold csrRowNodes
  have hlen : csrRowPtrOfDense data ncol (i + 1) - csrRowPtrOfDense data ncol i
      = (denseRowEntries data ncol i).length := by
    rw [csrRowPtrOfDense_succ]; omega
  rw [hlen]
  apply List.ext_getElem
  · simp
  · intro n h1 h2
    have hn : n < (denseRowEntries data ncol i).length := by simpa using h2
    have he := csrEntriesOfDense_getD data nrow ncol i n hi hn
    simp only [List.getElem_map, List.getElem_range, csrValuesOfDense, csrColsOfDense]
    rw [he, List.getD_eq_getElem _ _ hn]

lemma foldl_add_mul_self (ns : List Node) :
    ∀ a : ℚ, ns.foldl (fun acc n => acc + n.value * n.value) a
      = a + (ns.map (fun n => n.value * n.value)).sum := by
  induction ns with
  | nil => intro a; simp
  | cons n ns ih => intro a; simp [ih, add_assoc]

lemma normScalar_spec (ns : List Node) :
    normScalar ns
      = if (ns.map (fun n => n.value * n.value)).sum = 0 then 1
        else 1 / (ns.map (fun n => n.value * n.value)).sum := by
  unfold normScalar
  rw [foldl_add_mul_self, zero_add]
  have hnn : (0 : ℚ) ≤ (ns.map (fun n => n.value * n.value)).sum := by
    refine List.sum_nonneg (fun x hx => ?_)
    obtain ⟨n, hn, rfl⟩ := List.mem_map.mp hx
    exact mul_self_nonneg _
  by_cases h : (ns.map (fun n => n.value * n.value)).sum = 0
  · simp [h]
  · rw [if_neg h, if_pos (lt_of_le_of_ne hnn (Ne.symm h))]

lemma csrRowNodes_map_value (values : Nat → ℚ) (col_indices : Nat → Nat)
    (row_ptr : Nat → Nat) (field_map : Option (Nat → Int)) (i : Nat) :
    (csrRowNodes values col_indices row_ptr field_map i).map Node.value
      = (List.range (row_ptr (i + 1) - row_ptr i)).map
          (fun k => values (row_ptr i + k)) := by
  unfold csrRowNodes
  rw [List.map_map]
  rfl

lemma csrRowNodes_map_featId (values : Nat → ℚ) (col_indices : Nat → Nat)
    (row_ptr : Nat → Nat) (field_map : Option (Nat → Int)) (i : Nat) :
    (csrRowNodes values col_indices row_ptr field_map i).map Node.featId
      = (List.range (row_ptr (i + 1) - row_ptr i)).map
          (fun k => col_indices (row_ptr i + k)) := by
  unfold csrRowNodes
  rw [List.map_map]
  rfl

lemma csrRowNodes_map_sq (values : Nat → ℚ) (col_indices : Nat → Nat)
    (row_ptr : Nat → Nat) (field_map : Option (Nat → Int)) (i : Nat) :
    (csrRowNodes values col_indices row_ptr field_map i).map
        (fun n => n.value * n.value)
      = (List.range (row_ptr (i + 1) - row_ptr i)).map
          (fun k => values (row_ptr i + k) * values (row_ptr i + k)) := by
  unfold csrRowNodes
  rw [List.map_map]
  rfl

lemma getElem?_map_range {α : Type _} (f : Nat → α) (nrow i : Nat) (x : α)
    (h : ((List.range nrow).map f)[i]? = some x) : i < nrow ∧ x = f i := by
  rw [List.getElem?_map] at h
  by_cases hi : i < nrow
  · rw [List.getElem?_range hi] at h
    simp only [Option.map_some', Option.some.injEq] at h
    exact ⟨hi, h.symm⟩
  · rw [List.getElem?_eq_none (by simpa using Nat.le_of_not_lt hi)] at h
    simp at h

/-! ### Claims about the matrix builders -/

/-- Claim C2: for every dense input with `nrow` rows and `ncol` columns,
`build_dense` produces a matrix with exactly the same rows and node sequences
(column index, field index, value, in order), the same labels, the same
normalization scalars and the same `has_label` flag as `build_csr` applied to
the explicitly-sparse CSR representation of the same data with all zero
entries omitted, given the same `label` and `field_map` arguments. -/
theorem build_dense_refines_csr_of_sparse
    (data : Nat → ℚ) (nrow ncol : Nat)
    (label : Option (Nat → ℚ)) (field_map : Option (Nat → Int)) :
    buildCSRMatrix (csrValuesOfDense data nrow ncol) (csrColsOfDense data nrow ncol)
      (csrRowPtrOfDense data ncol) nrow label field_map
      = buildDenseMatrix data nrow ncol label field_map := by
  have hrow : ∀ i ∈ List.range nrow,
      csrRowNodes (csrValuesOfDense data nrow ncol) (csrColsOfDense data nrow ncol)
        (csrRowPtrOfDense data ncol) field_map i
        = denseRowNodes data ncol field_map i :=
    fun i hi => csrRowNodes_ofDense data nrow ncol field_map i (List.mem_range.mp hi)
  unfold buildCSRMatrix buildDenseMatrix
  simp only [DMatrix.mk.injEq]
  refine ⟨trivial, List.map_congr_left hrow, trivial,
    List.map_congr_left (fun i hi => congrArg normScalar (hrow i hi))⟩

/-- Claim C4: for every row of a matrix returned by `build_dense` or
`build_csr`, the stored normalization scalar equals `1 / Σ value²` over that
row's appended nodes when the sum is nonzero, and is exactly `1` when the sum
is zero (in particular a row with no nodes gets scalar `1`). -/
theorem row_norm_scalar_spec :
    (∀ (data : Nat → ℚ) (nrow ncol : Nat) (label : Option (Nat → ℚ))
        (field_map : Option (Nat → Int)) (i : Nat) (ns : List Node) (q : ℚ),
      (buildDenseMatrix data nrow ncol label field_map).rows[i]? = some ns →
      (buildDenseMatrix data nrow ncol label field_map).norm[i]? = some q →
      q = if (ns.map (fun n => n.value * n.value)).sum = 0 then 1
          else 1 / (ns.map (fun n => n.value * n.value)).sum) ∧
    (∀ (values : Nat → ℚ) (col_indices : Nat → Nat) (row_ptr : Nat → Nat)
        (nrow : Nat) (label : Option (Nat → ℚ)) (field_map : Option (Nat → Int))
        (i : Nat) (ns : List Node) (q : ℚ),
      (buildCSRMatrix values col_indices row_ptr nrow label field_map).rows[i]? = some ns →
      (buildCSRMatrix values col_indices row_ptr nrow label field_map).norm[i]? = some q →
      q = if (ns.map (fun n => n.value * n.value)).sum = 0 then 1
          else 1 / (ns.map (fun n => n.value * n.value)).sum) := by
  constructor
  · intro data nrow ncol label field_map i ns q h1 h2
    simp only [buildDenseMatrix] at h1 h2
    obtain ⟨hi, hns⟩ := getElem?_map_range _ nrow i ns h1
    obtain ⟨-, hq⟩ := getElem?_map_range _ nrow i q h2
    rw [hq, hns, normScalar_spec]
  · intro values col_indices row_ptr nrow label field_map i ns q h1 h2
    simp only [buildCSRMatrix] at h1 h2
    obtain ⟨hi, hns⟩ := getElem?_map_range _ nrow i ns h1
    obtain ⟨-, hq⟩ := getElem?_map_range _ nrow i q h2
    rw [hq, hns, normScalar_spec]

/-- Witness for C4 at the spec's concrete scenario
`build_dense([[1,0,2],[0,0,0]], nrow = 2, ncol = 3)`: row 0 gets the two
nodes `(col 0, val 1)`, `(col 2, val 2)` and scalar `1/5`. -/
theorem row_norm_scalar_spec_witness :
    (1 : ℚ) / 5
      = if (([⟨0, 0, 1⟩, ⟨0, 2, 2⟩] : List Node).map
            (fun n => n.value * n.value)).sum = 0
        then 1
        else 1 / (([⟨0, 0, 1⟩, ⟨0, 2, 2⟩] : List Node).map
            (fun n => n.value * n.value)).sum :=
  row_norm_scalar_spec.1
    (fun k => if k = 0 then (1 : ℚ) else if k = 2 then 2 else 0) 2 3
    none none 0 [⟨0, 0, 1⟩, ⟨0, 2, 2⟩] (1 / 5)
    (by decide)
    (by norm_num [buildDenseMatrix, denseRowNodes, normScalar, fieldOf,
      List.range_succ, List.filterMap_cons, List.filterMap_nil, List.foldl_cons,
      List.foldl_nil])

/-- Claim C6: `build_csr` appends one node for every entry index in
`[row_ptr[i], row_ptr[i+1])` of each row `i`, taking values and column
indices verbatim with no zero-filtering, so an explicit zero stored in the
CSR input is materialized as a node, and the norm accumulator runs over all
these entries (a zero entry contributing zero). -/
theorem csr_materializes_explicit_zeros
    (values : Nat → ℚ) (col_indices : Nat → Nat) (row_ptr : Nat → Nat)
    (nrow : Nat) (label : Option (Nat → ℚ)) (field_map : Option (Nat → Int))
    (i : Nat) (hi : i < nrow) :
    ((buildCSRMatrix values col_indices row_ptr nrow label field_map).rows[i]?).map
        List.length
      = some (row_ptr (i + 1) - row_ptr i) ∧
    ((buildCSRMatrix values col_indices row_ptr nrow label field_map).rows[i]?).map
        (List.map Node.value)
      = some ((List.range (row_ptr (i + 1) - row_ptr i)).map
          (fun k => values (row_ptr i + k))) ∧
    ((buildCSRMatrix values col_indices row_ptr nrow label field_map).rows[i]?).map
        (List.map Node.featId)
      = some ((List.range (row_ptr (i + 1) - row_ptr i)).map
          (fun k => col_indices (row_ptr i + k))) ∧
    (buildCSRMatrix values col_indices row_ptr nrow label field_map).norm[i]?
      = some (if ((List.range (row_ptr (i + 1) - row_ptr i)).map
              (fun k => values (row_ptr i + k) * values (row_ptr i + k))).sum = 0
          then 1
          else 1 / ((List.range (row_ptr (i + 1) - row_ptr i)).map
              (fun k => values (row_ptr i + k) * values (row_ptr i + k))).sum) := by
  have hrows : (buildCSRMatrix values col_indices row_ptr nrow label
        field_map).rows[i]?
      = some (csrRowNodes values col_indices row_ptr field_map i) := by
    simp [buildCSRMatrix, List.getElem?_map, List.getElem?_range hi]
  have hnorm : (buildCSRMatrix values col_indices row_ptr nrow label
        field_map).norm[i]?
      = some (normScalar (csrRowNodes values col_indices row_ptr field_map i)) := by
    simp [buildCSRMatrix, List.getElem?_map, List.getElem?_range hi]
  refine ⟨?_, ?_, ?_, ?_⟩
  · rw [hrows]
    simp [csrRowNodes]
  · rw [hrows]
    simp [csrRowNodes_map_value]
  · rw [hrows]
    simp [csrRowNodes_map_featId]
  · rw [hnorm, normScalar_spec, csrRowNodes_map_sq]

/-- Witness for C6: one row whose single CSR entry is an explicit zero; the
entry is still materialized as a node (row length 1) and the norm accumulator
over it is zero, giving scalar `1`. -/
theorem csr_materializes_explicit_zeros_witness :
    (((buildCSRMatrix (fun _ => 0) (fun j => j) (fun i => i) 1 none
          none).rows[0]?).map List.length
      = some ((fun i => i) (0 + 1) - (fun i => i) 0) ∧
    ((buildCSRMatrix (fun _ => 0) (fun j => j) (fun i => i) 1 none
          none).rows[0]?).map (List.map Node.value)
      = some ((List.range ((fun i => i) (0 + 1) - (fun i => i) 0)).map
          (fun k => (fun _ => (0 : ℚ)) ((fun i => i) 0 + k))) ∧
    ((buildCSRMatrix (fun _ => 0) (fun j => j) (fun i => i) 1 none
          none).rows[0]?).map (List.map Node.featId)
      = some ((List.range ((fun i => i) (0 + 1) - (fun i => i) 0)).map
          (fun k => (fun j => j) ((fun i => i) 0 + k))) ∧
    (buildCSRMatrix (fun _ => 0) (fun j => j) (fun i => i) 1 none
        none).norm[0]?
      = some (if ((List.range ((fun i => i) (0 + 1) - (fun i => i) 0)).map
              (fun k => (fun _ => (0 : ℚ)) ((fun i => i) 0 + k)
                * (fun _ => (0 : ℚ)) ((fun i => i) 0 + k))).sum = 0
          then 1
          else 1 / ((List.range ((fun i => i) (0 + 1) - (fun i => i) 0)).map
              (fun k => (fun _ => (0 : ℚ)) ((fun i => i) 0 + k)
                * (fun _ => (0 : ℚ)) ((fun i => i) 0 + k))).sum)) ∧
    ((buildCSRMatrix (fun _ => 0) (fun j => j) (fun i => i) 1 none
        none).rows[0]?).map List.length = some 1 :=
  ⟨csr_materializes_explicit_zeros (fun _ => 0) (fun j => j) (fun i => i) 1 none
      none 0 (by decide),
   by decide⟩

lemma fit_usedPaths_spec (env : FitEnv) (handle dtrain dvalid ob ol : Bool)
    (st : ProcState) (p : StagingId)
    (hp : p ∈ usedPaths (wl_xl_fit env handle dtrain dvalid ob ol st).events) :
    p = ⟨true, st.fit_counter⟩ ∧
    (wl_xl_fit env handle dtrain dvalid ob ol st).st.fit_counter
      = st.fit_counter + 1 := by
  unfold wl_xl_fit at hp ⊢
  split_ifs at hp ⊢ <;>
    simp_all [usedPaths, restore_stdout, suppress_stdout, set_error]

lemma predict_usedPaths_spec (env : PredictEnv) (handle mb : Bool) (ml : Int)
    (dt op ol : Bool) (st : ProcState) (p : StagingId)
    (hp : p ∈ usedPaths (wl_xl_predict env handle mb ml dt op ol st).events) :
    p = ⟨false, st.fit_counter⟩ ∧
    (wl_xl_predict env handle mb ml dt op ol st).st.fit_counter
      = st.fit_counter + 1 := by
  unfold wl_xl_predict at hp ⊢
  split_ifs at hp ⊢ <;>
    simp_all [usedPaths, restore_stdout, suppress_stdout, set_error]

/-! ### Claims about the boundary operations -/

/-- Claim C5: every fallible operation given a null required pointer or a
non-positive dimension argument returns the failure status `-1` without
making any call into the engine and without creating any staging path (the
event trace is empty). -/
theorem invalid_args_fail_without_engine :
    (∀ (env : CreateEnv) (mt out : Bool) (st : ProcState), (¬mt ∨ ¬out) →
      (wl_xl_create env mt out st).status = -1 ∧
      (wl_xl_create env mt out st).events = []) ∧
    (∀ (es : Int) (h k v : Bool) (st : ProcState), (¬h ∨ ¬k ∨ ¬v) →
      (wl_xl_set_str es h k v st).status = -1 ∧
      (wl_xl_set_str es h k v st).events = []) ∧
    (∀ (es : Int) (h k : Bool) (st : ProcState), (¬h ∨ ¬k) →
      (wl_xl_set_int es h k st).status = -1 ∧
      (wl_xl_set_int es h k st).events = []) ∧
    (∀ (es : Int) (h k : Bool) (st : ProcState), (¬h ∨ ¬k) →
      (wl_xl_set_float es h k st).status = -1 ∧
      (wl_xl_set_float es h k st).events = []) ∧
    (∀ (es : Int) (h k : Bool) (st : ProcState), (¬h ∨ ¬k) →
      (wl_xl_set_bool es h k st).status = -1 ∧
      (wl_xl_set_bool es h k st).events = []) ∧
    (∀ (env : BuildEnv) (data : Option (Nat → ℚ)) (nrow ncol : Int)
        (label : Option (Nat → ℚ)) (fm : Option (Nat → Int)) (out : Bool)
        (st : ProcState),
      (data = none ∨ nrow ≤ 0 ∨ ncol ≤ 0 ∨ ¬out) →
      (wl_xl_create_dmatrix_dense env data nrow ncol label fm out st).status = -1 ∧
      (wl_xl_create_dmatrix_dense env data nrow ncol label fm out st).events = []) ∧
    (∀ (env : BuildEnv) (values : Option (Nat → ℚ)) (nnz : Int)
        (ci : Option (Nat → Nat)) (rp : Option (Nat → Nat)) (nrow ncol : Int)
        (label : Option (Nat → ℚ)) (fm : Option (Nat → Int)) (out : Bool)
        (st : ProcState),
      (values = none ∨ ci = none ∨ rp = none ∨ nrow ≤ 0 ∨ ncol ≤ 0 ∨ ¬out) →
      (wl_xl_create_dmatrix_csr env values nnz ci rp nrow ncol label fm out
        st).status = -1 ∧
      (wl_xl_create_dmatrix_csr env values nnz ci rp nrow ncol label fm out
        st).events = []) ∧
    (∀ (env : FitEnv) (handle dtrain dvalid ob ol : Bool) (st : ProcState),
      (¬handle ∨ ¬dtrain ∨ ¬ob ∨ ¬ol) →
      (wl_xl_fit env handle dtrain dvalid ob ol st).status = -1 ∧
      (wl_xl_fit env handle dtrain dvalid ob ol st).events = []) ∧
    (∀ (env : PredictEnv) (handle mb : Bool) (ml : Int) (dt op ol : Bool)
        (st : ProcState),
      (¬handle ∨ ¬mb ∨ ml ≤ 0 ∨ ¬dt ∨ ¬op ∨ ¬ol) →
      (wl_xl_predict env handle mb ml dt op ol st).status = -1 ∧
      (wl_xl_predict env handle mb ml dt op ol st).events = []) := by
  refine ⟨?_, ?_, ?_, ?_, ?_, ?_, ?_, ?_, ?_⟩
  · intro env mt out st h
    rcases h with h | h <;> simp [wl_xl_create, h]
  · intro es h k v st hh
    rcases hh with hh | hh | hh <;> simp [wl_xl_set_str, hh]
  · intro es h k st hh
    rcases hh with hh | hh <;> simp [wl_xl_set_int, hh]
  · intro es h k st hh
    rcases hh with hh | hh <;> simp [wl_xl_set_float, hh]
  · intro es h k st hh
    rcases hh with hh | hh <;> simp [wl_xl_set_bool, hh]
  · intro env data nrow ncol label fm out st h
    cases data with
    | none => simp [wl_xl_create_dmatrix_dense]
    | some d =>
      rcases h with h | h | h | h
      · simp at h
      · simp [wl_xl_create_dmatrix_dense, h]
      · simp [wl_xl_create_dmatrix_dense, h]
      · simp [wl_xl_create_dmatrix_dense, h]
  · intro env values nnz ci rp nrow ncol label fm out st h
    cases values with
    | none => simp [wl_xl_create_dmatrix_csr]
    | some v =>
      cases ci with
      | none => simp [wl_xl_create_dmatrix_csr]
      | some c =>
        cases rp with
        | none => simp [wl_xl_create_dmatrix_csr]
        | some r =>
          rcases h with h | h | h | h | h | h
          · simp at h
          · simp at h
          · simp at h
          · simp [wl_xl_create_dmatrix_csr, h]
          · simp [wl_xl_create_dmatrix_csr, h]
          · simp [wl_xl_create_dmatrix_csr, h]
  · intro env handle dtrain dvalid ob ol st h
    rcases h with h | h | h | h <;> simp [wl_xl_fit, h]
  · intro env handle mb ml dt op ol st h
    rcases h with h | h | h | h | h | h <;> simp [wl_xl_predict, h]

/-- Witness for C5: a null model-type pointer in `create`, a null handle in
`fit`, and a non-positive `model_len` in `predict` each fail with status `-1`
and an empty event trace. -/
theorem invalid_args_fail_without_engine_witness :
    ((wl_xl_create ⟨true, none⟩ false true ⟨"", 0, false, false⟩).status = -1 ∧
     (wl_xl_create ⟨true, none⟩ false true ⟨"", 0, false, false⟩).events = []) ∧
    ((wl_xl_fit ⟨true, true, true, true, true, none⟩ false true false true true
        ⟨"", 0, false, false⟩).status = -1 ∧
     (wl_xl_fit ⟨true, true, true, true, true, none⟩ false true false true true
        ⟨"", 0, false, false⟩).events = []) ∧
    ((wl_xl_predict ⟨true, true, true, true, none⟩ true true 0 true true true
        ⟨"", 0, false, false⟩).status = -1 ∧
     (wl_xl_predict ⟨true, true, true, true, none⟩ true true 0 true true true
        ⟨"", 0, false, false⟩).events = []) :=
  ⟨invalid_args_fail_without_engine.1 ⟨true, none⟩ false true ⟨"", 0, false, false⟩
      (Or.inl (by decide)),
   invalid_args_fail_without_engine.2.2.2.2.2.2.2.1 ⟨true, true, true, true, true,
      none⟩ false true false true true ⟨"", 0, false, false⟩ (Or.inl (by decide)),
   invalid_args_fail_without_engine.2.2.2.2.2.2.2.2 ⟨true, true, true, true, none⟩
      true true 0 true true true ⟨"", 0, false, false⟩
      (Or.inr (Or.inr (Or.inl (by decide))))⟩

/-- Claim C9: `create` fails on a null `model_type` or `out`; when the engine
accepts the model type it immediately applies the fixed host-safe defaults —
quiet output on, `lock_free` off, `from_file` off, `bin_out` off,
`early_stop` off, `nthread` 1, log sink `/dev/null` — in this order, then
writes the handle to `out` and returns success with the error slot clear. -/
theorem create_applies_wasm_defaults :
    ∀ (env : CreateEnv) (model_type out : Bool) (st : ProcState),
      ((¬model_type ∨ ¬out) → (wl_xl_create env model_type out st).status = -1) ∧
      (model_type → out → env.createOk →
        wl_xl_create env model_type out st
          = ⟨0, true,
              [.engineCreate, .engineSetBool ("quiet") true,
               .engineSetBool ("lock_free") false,
               .engineSetBool ("from_file") false,
               .engineSetBool ("bin_out") false,
               .engineSetBool ("early_stop") false,
               .engineSetInt ("nthread") 1,
               .engineSetStr ("log") ("/dev/null")],
              { st with lastError := "" }⟩) := by
  intro env model_type out st
  constructor
  · intro h
    rcases h with h | h <;> simp [wl_xl_create, h]
  · intro hmt hout hok
    simp [wl_xl_create, hmt, hout, hok, wlDefaults]

/-- Witness for C9 at a concrete accepting engine and non-null arguments. -/
theorem create_applies_wasm_defaults_witness :
    wl_xl_create ⟨true, none⟩ true true ⟨"stale", 7, false, false⟩
      = ⟨0, true,
          [.engineCreate, .engineSetBool ("quiet") true,
           .engineSetBool ("lock_free") false,
           .engineSetBool ("from_file") false,
           .engineSetBool ("bin_out") false,
           .engineSetBool ("early_stop") false,
           .engineSetInt ("nthread") 1,
           .engineSetStr ("log") ("/dev/null")],
          { (⟨"stale", 7, false, false⟩ : ProcState) with lastError := "" }⟩ :=
  (create_applies_wasm_defaults ⟨true, none⟩ true true
    ⟨"stale", 7, false, false⟩).2 rfl rfl rfl

/-- Claim C3 counterexample: `wl_xl_set_int` with non-null arguments and a
successful engine call does not clear the stored error message, so after this
successful call `get_last_error` still returns the previous (non-empty)
message — refuting the claim that every fallible public operation clears the
slot on entry. -/
theorem set_int_success_preserves_stale_error :
    (wl_xl_set_int 0 true true ⟨"previous failure", 0, false, false⟩).status = 0 ∧
    wl_xl_get_last_error
        (wl_xl_set_int 0 true true ⟨"previous failure", 0, false, false⟩).st
      = "previous failure" ∧
    ("previous failure" : String) ≠ "" := by decide

/-- Claim C3 as amended: `create`, `build_dense`, `build_csr`, `fit` and
`predict` clear the stored error message on entry (their result is
independent of the previously stored message, and after a successful such
call the stored message is empty); the typed setters `set_str`, `set_int`,
`set_float`, `set_bool` do not clear it — with non-null arguments they leave
the process state, including the stored message, unchanged. -/
theorem error_slot_cleared_except_setters :
    (∀ (env : CreateEnv) (mt out : Bool) (st : ProcState),
      wl_xl_create env mt out st
        = wl_xl_create env mt out { st with lastError := "" } ∧
      ((wl_xl_create env mt out st).status = 0 →
        (wl_xl_create env mt out st).st.lastError = "")) ∧
    (∀ (env : BuildEnv) (data : Option (Nat → ℚ)) (nrow ncol : Int)
        (label : Option (Nat → ℚ)) (fm : Option (Nat → Int)) (out : Bool)
        (st : ProcState),
      wl_xl_create_dmatrix_dense env data nrow ncol label fm out st
        = wl_xl_create_dmatrix_dense env data nrow ncol label fm out
            { st with lastError := "" } ∧
      ((wl_xl_create_dmatrix_dense env data nrow ncol label fm out st).status = 0 →
        (wl_xl_create_dmatrix_dense env data nrow ncol label fm out
          st).st.lastError = "")) ∧
    (∀ (env : BuildEnv) (values : Option (Nat → ℚ)) (nnz : Int)
        (ci : Option (Nat → Nat)) (rp : Option (Nat → Nat)) (nrow ncol : Int)
        (label : Option (Nat → ℚ)) (fm : Option (Nat → Int)) (out : Bool)
        (st : ProcState),
      wl_xl_create_dmatrix_csr env values nnz ci rp nrow ncol label fm out st
        = wl_xl_create_dmatrix_csr env values nnz ci rp nrow ncol label fm out
            { st with lastError := "" } ∧
      ((wl_xl_create_dmatrix_csr env values nnz ci rp nrow ncol label fm out
          st).status = 0 →
        (wl_xl_create_dmatrix_csr env values nnz ci rp nrow ncol label fm out
          st).st.lastError = "")) ∧
    (∀ (env : FitEnv) (handle dtrain dvalid ob ol : Bool) (st : ProcState),
      wl_xl_fit env handle dtrain dvalid ob ol st
        = wl_xl_fit env handle dtrain dvalid ob ol { st with lastError := "" } ∧
      ((wl_xl_fit env handle dtrain dvalid ob ol st).status = 0 →
        (wl_xl_fit env handle dtrain dvalid ob ol st).st.lastError = "")) ∧
    (∀ (env : PredictEnv) (handle mb : Bool) (ml : Int) (dt op ol : Bool)
        (st : ProcState),
      wl_xl_predict env handle mb ml dt op ol st
        = wl_xl_predict env handle mb ml dt op ol { st with lastError := "" } ∧
      ((wl_xl_predict env handle mb ml dt op ol st).status = 0 →
        (wl_xl_predict env handle mb ml dt op ol st).st.lastError = "")) ∧
    (∀ (es : Int) (h k v : Bool) (st : ProcState), h → k → v →
      (wl_xl_set_str es h k v st).st = st) ∧
    (∀ (es : Int) (h k : Bool) (st : ProcState), h → k →
      (wl_xl_set_int es h k st).st = st) ∧
    (∀ (es : Int) (h k : Bool) (st : ProcState), h → k →
      (wl_xl_set_float es h k st).st = st) ∧
    (∀ (es : Int) (h k : Bool) (st : ProcState), h → k →
      (wl_xl_set_bool es h k st).st = st) := by
  refine ⟨?_, ?_, ?_, ?_, ?_, ?_, ?_, ?_, ?_⟩
  · intro env mt out st
    refine ⟨rfl, ?_⟩
    unfold wl_xl_create
    split_ifs <;> simp [set_error]
  · intro env data nrow ncol label fm out st
    refine ⟨rfl, ?_⟩
    unfold wl_xl_create_dmatrix_dense
    cases data <;>
      first
      | (split_ifs <;> simp [set_error])
      | simp [set_error]
  · intro env values nnz ci rp nrow ncol label fm out st
    refine ⟨rfl, ?_⟩
    unfold wl_xl_create_dmatrix_csr
    cases values <;> cases ci <;> cases rp <;>
      first
      | (split_ifs <;> simp [set_error])
      | simp [set_error]
  · intro env handle dtrain dvalid ob ol st
    refine ⟨rfl, ?_⟩
    unfold wl_xl_fit
    split_ifs <;> simp [set_error, restore_stdout, suppress_stdout]
  · intro env handle mb ml dt op ol st
    refine ⟨rfl, ?_⟩
    unfold wl_xl_predict
    split_ifs <;> simp [set_error, restore_stdout, suppress_stdout]
  · intro es h k v st hh hk hv
    simp [wl_xl_set_str, hh, hk, hv]
  · intro es h k st hh hk
    simp [wl_xl_set_int, hh, hk]
  · intro es h k st hh hk
    simp [wl_xl_set_float, hh, hk]
  · intro es h k st hh hk
    simp [wl_xl_set_bool, hh, hk]

/-- Witness for amended C3: after a successful `create` the stored message is
empty, while a successful `set_bool` leaves a stale message untouched. -/
theorem error_slot_cleared_except_setters_witness :
    (wl_xl_create ⟨true, none⟩ true true ⟨"stale", 3, false, false⟩).st.lastError
      = "" ∧
    (wl_xl_set_bool 5 true true ⟨"stale", 3, false, false⟩).st
      = ⟨"stale", 3, false, false⟩ :=
  ⟨(error_slot_cleared_except_setters.1 ⟨true, none⟩ true true
      ⟨"stale", 3, false, false⟩).2 (by decide),
   error_slot_cleared_except_setters.2.2.2.2.2.2.2.2 5 true true
      ⟨"stale", 3, false, false⟩ rfl rfl⟩

/-- Claim C1 (code bug): when `XLearnFit` succeeds but the staging file cannot
be reopened for read-back, `wl_xl_fit` returns `-1` without removing the
staging file it knows was created — the staging path is not reclaimed on this
exit path, contrary to the spec's hard invariant. -/
theorem fit_reopen_failure_leaks_staging :
    (wl_xl_fit ⟨true, true, true, false, true, none⟩ true true false true true
        ⟨"", 0, false, false⟩).status = -1 ∧
    Event.stageCreate ⟨true, 0⟩
        ∈ (wl_xl_fit ⟨true, true, true, false, true, none⟩ true true false true
            true ⟨"", 0, false, false⟩).events ∧
    Event.stageRemove ⟨true, 0⟩
        ∉ (wl_xl_fit ⟨true, true, true, false, true, none⟩ true true false true
            true ⟨"", 0, false, false⟩).events ∧
    ¬ stagingReclaimed
        (wl_xl_fit ⟨true, true, true, false, true, none⟩ true true false true
          true ⟨"", 0, false, false⟩).events := by decide

/-- Claim C10 (code bug): when an exception is raised during matrix
construction after the `DMatrix` object was allocated, the builder returns
`-1`, never writes the out slot, and stores the exception text — but the
partially built matrix is never released (no release event exists on any
builder path, unlike `wl_xl_free_dmatrix`). -/
theorem build_exception_leaks_partial_matrix :
    (wl_xl_create_dmatrix_dense ⟨true, "std::bad_alloc"⟩ (some (fun _ => 1)) 1 1
        none none true ⟨"", 0, false, false⟩).status = -1 ∧
    (wl_xl_create_dmatrix_dense ⟨true, "std::bad_alloc"⟩ (some (fun _ => 1)) 1 1
        none none true ⟨"", 0, false, false⟩).outMat = none ∧
    (wl_xl_create_dmatrix_dense ⟨true, "std::bad_alloc"⟩ (some (fun _ => 1)) 1 1
        none none true ⟨"", 0, false, false⟩).st.lastError = "std::bad_alloc" ∧
    Event.allocMatrix
        ∈ (wl_xl_create_dmatrix_dense ⟨true, "std::bad_alloc"⟩ (some (fun _ => 1))
            1 1 none none true ⟨"", 0, false, false⟩).events ∧
    Event.releaseMatrix
        ∉ (wl_xl_create_dmatrix_dense ⟨true, "std::bad_alloc"⟩ (some (fun _ => 1))
            1 1 none none true ⟨"", 0, false, false⟩).events ∧
    Event.releaseMatrix ∈ wl_xl_free_dmatrix true := by decide

/-- Claim C7: staging identifiers are generated from the single process-wide
counter shared by `fit` and `predict`: every staging identifier an invocation
touches carries the counter value at entry, the counter is incremented on
each use (and only grows), so two sequential `fit` calls — and likewise two
sequential `predict` calls — never use the same staging identifier. -/
theorem staging_counter_unique :
    (∀ (env : FitEnv) (handle dtrain dvalid ob ol : Bool) (st : ProcState)
        (p : StagingId),
      p ∈ usedPaths (wl_xl_fit env handle dtrain dvalid ob ol st).events →
      p = ⟨true, st.fit_counter⟩ ∧
      (wl_xl_fit env handle dtrain dvalid ob ol st).st.fit_counter
        = st.fit_counter + 1) ∧
    (∀ (env : PredictEnv) (handle mb : Bool) (ml : Int) (dt op ol : Bool)
        (st : ProcState) (p : StagingId),
      p ∈ usedPaths (wl_xl_predict env handle mb ml dt op ol st).events →
      p = ⟨false, st.fit_counter⟩ ∧
      (wl_xl_predict env handle mb ml dt op ol st).st.fit_counter
        = st.fit_counter + 1) ∧
    (∀ (env1 env2 : FitEnv) (h1 d1 v1 b1 l1 h2 d2 v2 b2 l2 : Bool)
        (st : ProcState) (p1 p2 : StagingId),
      p1 ∈ usedPaths (wl_xl_fit env1 h1 d1 v1 b1 l1 st).events →
      p2 ∈ usedPaths (wl_xl_fit env2 h2 d2 v2 b2 l2
            (wl_xl_fit env1 h1 d1 v1 b1 l1 st).st).events →
      p1 ≠ p2) ∧
    (∀ (env1 env2 : PredictEnv) (h1 m1 : Bool) (ml1 : Int) (d1 o1 n1 : Bool)
        (h2 m2 : Bool) (ml2 : Int) (d2 o2 n2 : Bool)
        (st : ProcState) (p1 p2 : StagingId),
      p1 ∈ usedPaths (wl_xl_predict env1 h1 m1 ml1 d1 o1 n1 st).events →
      p2 ∈ usedPaths (wl_xl_predict env2 h2 m2 ml2 d2 o2 n2
            (wl_xl_predict env1 h1 m1 ml1 d1 o1 n1 st).st).events →
      p1 ≠ p2) := by
  refine ⟨fun env handle dtrain dvalid ob ol st p hp =>
      fit_usedPaths_spec env handle dtrain dvalid ob ol st p hp,
    fun env handle mb ml dt op ol st p hp =>
      predict_usedPaths_spec env handle mb ml dt op ol st p hp, ?_, ?_⟩
  · intro env1 env2 h1 d1 v1 b1 l1 h2 d2 v2 b2 l2 st p1 p2 hp1 hp2
    obtain ⟨he1, hc1⟩ := fit_usedPaths_spec env1 h1 d1 v1 b1 l1 st p1 hp1
    obtain ⟨he2, -⟩ := fit_usedPaths_spec env2 h2 d2 v2 b2 l2 _ p2 hp2
    rw [hc1] at he2
    rw [he1, he2]
    simp
  · intro env1 env2 h1 m1 ml1 d1 o1 n1 h2 m2 ml2 d2 o2 n2 st p1 p2 hp1 hp2
    obtain ⟨he1, hc1⟩ := predict_usedPaths_spec env1 h1 m1 ml1 d1 o1 n1 st p1 hp1
    obtain ⟨he2, -⟩ := predict_usedPaths_spec env2 h2 m2 ml2 d2 o2 n2 _ p2 hp2
    rw [hc1] at he2
    rw [he1, he2]
    simp

/-- Witness for C7: two sequential all-successful `fit` calls from a fresh
state use the distinct staging identifiers `0` and `1`. -/
theorem staging_counter_unique_witness :
    (⟨true, 0⟩ : StagingId) ≠ ⟨true, 1⟩ :=
  staging_counter_unique.2.2.1 ⟨true, true, true, true, true, none⟩
    ⟨true, true, true, true, true, none⟩ true true false true true
    true true false true true ⟨"", 0, false, false⟩ ⟨true, 0⟩ ⟨true, 1⟩
    (by decide) (by decide)

/-- Claim C8: in both `fit` and `predict`, whenever the engine's fit/predict
routine is invoked, stdout suppression happens immediately before it and
restoration immediately after it on every exit path reachable after the
suppression (the subtrace of redirection and engine-invocation events is the
exact bracket), and a call entered with stdout unredirected returns with
stdout unredirected and no saved descriptor. -/
theorem stdout_suppression_bracketed :
    (∀ (env : FitEnv) (handle dtrain dvalid ob ol : Bool) (st : ProcState),
      st.stdoutRedirected = false → st.savedStdout = false →
      ((wl_xl_fit env handle dtrain dvalid ob ol st).st.stdoutRedirected = false ∧
       (wl_xl_fit env handle dtrain dvalid ob ol st).st.savedStdout = false) ∧
      (stdoutTrace (wl_xl_fit env handle dtrain dvalid ob ol st).events = [] ∨
       stdoutTrace (wl_xl_fit env handle dtrain dvalid ob ol st).events
         = [.suppressOut, .engineFit ⟨true, st.fit_counter⟩, .restoreOut])) ∧
    (∀ (env : PredictEnv) (handle mb : Bool) (ml : Int) (dt op ol : Bool)
        (st : ProcState),
      st.stdoutRedirected = false → st.savedStdout = false →
      ((wl_xl_predict env handle mb ml dt op ol st).st.stdoutRedirected = false ∧
       (wl_xl_predict env handle mb ml dt op ol st).st.savedStdout = false) ∧
      (stdoutTrace (wl_xl_predict env handle mb ml dt op ol st).events = [] ∨
       stdoutTrace (wl_xl_predict env handle mb ml dt op ol st).events
         = [.suppressOut, .enginePredict ⟨false, st.fit_counter⟩,
            .restoreOut])) := by
  constructor
  · intro env handle dtrain dvalid ob ol st hr hs
    unfold wl_xl_fit
    split_ifs <;>
      simp_all [stdoutTrace, restore_stdout, suppress_stdout, set_error]
  · intro env handle mb ml dt op ol st hr hs
    unfold wl_xl_predict
    split_ifs <;>
      simp_all [stdoutTrace, restore_stdout, suppress_stdout, set_error]

/-- Witness for C8: a fully successful `fit` from a clean state produces the
exact suppress/invoke/restore bracket and returns with stdout state clean. -/
theorem stdout_suppression_bracketed_witness :
    (((wl_xl_fit ⟨true, true, true, true, true, none⟩ true true false true true
        ⟨"", 0, false, false⟩).st.stdoutRedirected = false ∧
      (wl_xl_fit ⟨true, true, true, true, true, none⟩ true true false true true
        ⟨"", 0, false, false⟩).st.savedStdout = false) ∧
     (stdoutTrace (wl_xl_fit ⟨true, true, true, true, true, none⟩ true true false
          true true ⟨"", 0, false, false⟩).events = [] ∨
      stdoutTrace (wl_xl_fit ⟨true, true, true, true, true, none⟩ true true false
          true true ⟨"", 0, false, false⟩).events
        = [.suppressOut, .engineFit ⟨true, 0⟩, .restoreOut])) ∧
    stdoutTrace (wl_xl_fit ⟨true, true, true, true, true, none⟩ true true false
        true true ⟨"", 0, false, false⟩).events
      = [.suppressOut, .engineFit ⟨true, 0⟩, .restoreOut] :=
  ⟨stdout_suppression_bracketed.1 ⟨true, true, true, true, true, none⟩ true true
      false true true ⟨"", 0, false, false⟩ rfl rfl,
   by decide⟩

end WlApi
